import Mathlib

/-!
Shallow embedding of the MikroTik BLE Tag payload decoder
(`custom_components/mikrotik_ble_tag/sensor.py`, function
`parse_mikrotik_data` and its local helpers).

Modelling conventions:
* Python integers are arbitrary-precision two's complement, so the raw
  16-bit fields unpacked with struct format `h` (signed little-endian)
  are modelled as `ℤ`, unsigned fields (`B`, `H`, `I`) as `ℕ`.
* Python `v & 0xFF` on an arbitrary int is `v mod 256` (non-negative),
  and `v >> 8` is an arithmetic (floor) shift, i.e. `Int.fdiv v 256`.
* All floating-point arithmetic performed by the source on these values
  (division of a 16-bit integer by 256.0, comparisons against small
  integer bounds) is exact in IEEE-754 double precision, so it is
  modelled with `ℚ`.  The only inexact operation, `math.sqrt`, is kept
  out of the executable definitions: `calculate_total_acceleration_sq`
  returns the radicand and `Real.sqrt` is applied at the theorem level.
* The source signals failure by logging an error and returning the empty
  dict `{}`.  The two distinct failure paths (the length check at line
  179, which logs the actual and the expected length, and the catch-all
  `except` at line 294) are modelled as the typed results
  `DecodeError.invalidLength` and `DecodeError.malformedPayload`; a
  successful parse is `Except.ok` of the returned attribute record.
-/

/-- Flag bit mask for the reed switch (sensor.py line 26). -/
def FLAG_REED_SWITCH : ℕ := 0x01

/-- Flag bit mask for tilt detection (sensor.py line 27). -/
def FLAG_ACCEL_TILT : ℕ := 0x02

/-- Flag bit mask for free fall detection (sensor.py line 28). -/
def FLAG_ACCEL_FREE_FALL : ℕ := 0x04

/-- Flag bit mask for impact on the x axis (sensor.py line 29). -/
def FLAG_IMPACT_X : ℕ := 0x08

/-- Flag bit mask for impact on the y axis (sensor.py line 30). -/
def FLAG_IMPACT_Y : ℕ := 0x10

/-- Flag bit mask for impact on the z axis (sensor.py line 31). -/
def FLAG_IMPACT_Z : ℕ := 0x20

/-- `swap_octets` from sensor.py (lines 198-199):
`((value & 0xFF) << 8) | ((value >> 8) & 0xFF)`.
On Python ints, `value & 0xFF = value mod 256`, `value >> 8` is a floor
shift, and the `|` of the two disjoint byte ranges is addition. -/
def swap_octets (value : ℤ) : ℤ :=
  (value.emod 256) * 256 + (value.fdiv 256).emod 256

/-- `convert_acceleration` from sensor.py (lines 202-210): swap the
octets, divide by 256.0, and replace the result by 0.0 whenever it is
outside [-16, 16].  Note the source applies no two's-complement
correction to the swapped word (unlike `convert_temperature`). -/
def convert_acceleration (value : ℤ) : ℚ :=
  let swapped_value := swap_octets value
  let acceleration : ℚ := (swapped_value : ℚ) / 256
  if acceleration < -16 ∨ acceleration > 16 then 0 else acceleration

/-- `convert_temperature` from sensor.py (lines 213-224): swap the
octets, subtract 0x10000 if the swapped word exceeds 0x7FFF, divide by
256.0, and return `none` when the result is outside [-50, 100]. -/
def convert_temperature (value : ℤ) : Option ℚ :=
  let swapped_value := swap_octets value
  let corrected := if swapped_value > 0x7FFF then swapped_value - 0x10000 else swapped_value
  let temperature_celsius : ℚ := (corrected : ℚ) / 256
  if temperature_celsius < -50 ∨ temperature_celsius > 100 then none
  else some temperature_celsius

/-- `convert_battery` from sensor.py (lines 227-231): return `none` when
the value is below 0 or above 100, otherwise the value itself.  The
argument is `ℤ` because Python ints are signed, which is what makes the
`value < 0` test syntactically meaningful even though the field feeding
it is an unsigned byte. -/
def convert_battery (value : ℤ) : Option ℤ :=
  if value < 0 ∨ value > 100 then none else some value

/-- The days/hours/minutes/seconds quadruple computed by
`convert_uptime`; the source renders it as the string
`f"{days}d {hours}h {minutes}m {seconds}s"`. -/
structure Uptime where
  days : ℕ
  hours : ℕ
  minutes : ℕ
  seconds : ℕ
deriving Repr, DecidableEq

/-- `convert_uptime` from sensor.py (lines 234-241): successive integer
division and modulo of the seconds count. -/
def convert_uptime (uptime_seconds : ℕ) : Uptime :=
  let days := uptime_seconds / (24 * 3600)
  let r1 := uptime_seconds % (24 * 3600)
  let hours := r1 / 3600
  let r2 := r1 % 3600
  let minutes := r2 / 60
  let seconds := r2 % 60
  ⟨days, hours, minutes, seconds⟩

/-- The six flag booleans extracted at sensor.py lines 264-269. -/
structure Flags where
  flag_reed_switch : Bool
  flag_accel_tilt : Bool
  flag_accel_free_fall : Bool
  flag_impact_x : Bool
  flag_impact_y : Bool
  flag_impact_z : Bool
deriving Repr, DecidableEq

/-- The flag extraction of sensor.py lines 264-269: each flag is
`bool(flag & MASK)`, i.e. the masked value compared against 0. -/
def parse_flags (flag : ℕ) : Flags :=
  ⟨flag &&& FLAG_REED_SWITCH != 0,
   flag &&& FLAG_ACCEL_TILT != 0,
   flag &&& FLAG_ACCEL_FREE_FALL != 0,
   flag &&& FLAG_IMPACT_X != 0,
   flag &&& FLAG_IMPACT_Y != 0,
   flag &&& FLAG_IMPACT_Z != 0⟩

/-- `calculate_total_acceleration` from sensor.py (lines 244-247), up to
the final `math.sqrt`: when all three axes are present it returns the
radicand `x² + y² + z²`, otherwise `none`.  The square root, being
irrational in general, is applied at the theorem level via `Real.sqrt`. -/
def calculate_total_acceleration_sq (acc_x acc_y acc_z : Option ℚ) : Option ℚ :=
  match acc_x, acc_y, acc_z with
  | some x, some y, some z => some (x ^ 2 + y ^ 2 + z ^ 2)
  | _, _, _ => none

/-- The two failure paths of `parse_mikrotik_data`: the explicit length
check (lines 179-181, which logs the actual and the expected length) and
the catch-all `except` clause (lines 294-296).  In this model of the
parse the `malformedPayload` branch is unreachable, because
`struct.unpack` of an 18-byte buffer against format `<BBHhhhhIBB` cannot
fail and every subsequent conversion is total. -/
inductive DecodeError where
  | invalidLength (actual expected : ℕ)
  | malformedPayload
deriving Repr, DecidableEq

/-- The attribute dictionary returned by `parse_mikrotik_data`
(lines 279-293).  `payload_version`, `encryption_flag` and `salt` are
unpacked by the source but not placed in the returned dict, so they do
not appear here.  `total_acceleration_sq` holds the radicand of the
`total_acceleration` entry (see `calculate_total_acceleration_sq`). -/
structure MeasurementRecord where
  acceleration_x : ℚ
  acceleration_y : ℚ
  acceleration_z : ℚ
  total_acceleration_sq : Option ℚ
  temperature : Option ℚ
  uptime : Uptime
  flags : Flags
  battery : Option ℤ
deriving Repr, DecidableEq

/-- Reading of a struct-format `h` field: the unsigned little-endian
16-bit word reinterpreted as a signed 16-bit integer. -/
def toSigned16 (u : ℕ) : ℤ :=
  if u ≥ 0x8000 then (u : ℤ) - 0x10000 else (u : ℤ)

/-- Unsigned 16-bit little-endian word from two bytes (struct `H`/`h`). -/
def readU16LE (b0 b1 : ℕ) : ℕ := b0 + 256 * b1

/-- Unsigned 32-bit little-endian word from four bytes (struct `I`). -/
def readU32LE (b0 b1 b2 b3 : ℕ) : ℕ :=
  b0 + 256 * b1 + 65536 * b2 + 16777216 * b3

/-- `parse_mikrotik_data` from sensor.py (lines 171-296): check the
18-byte length, unpack `<BBHhhhhIBB`, convert every field and assemble
the attribute record.  The byte offsets follow the struct format:
bytes 0-3 are `payload_version`, `encryption_flag` and `salt` (unpacked
but not returned), 4-5/6-7/8-9 the acceleration axes, 10-11 the
temperature, 12-15 the uptime, 16 the flag byte, 17 the battery. -/
def parse_mikrotik_data (data : List ℕ) : Except DecodeError MeasurementRecord :=
  if data.length = 18 then
    let acc_x_raw := toSigned16 (readU16LE (data.getD 4 0) (data.getD 5 0))
    let acc_y_raw := toSigned16 (readU16LE (data.getD 6 0) (data.getD 7 0))
    let acc_z_raw := toSigned16 (readU16LE (data.getD 8 0) (data.getD 9 0))
    let temperature_raw := toSigned16 (readU16LE (data.getD 10 0) (data.getD 11 0))
    let uptime := readU32LE (data.getD 12 0) (data.getD 13 0) (data.getD 14 0) (data.getD 15 0)
    let flag := data.getD 16 0
    let battery := data.getD 17 0
    let acc_x_converted := convert_acceleration acc_x_raw
    let acc_y_converted := convert_acceleration acc_y_raw
    let acc_z_converted := convert_acceleration acc_z_raw
    Except.ok
      ⟨acc_x_converted, acc_y_converted, acc_z_converted,
       calculate_total_acceleration_sq (some acc_x_converted) (some acc_y_converted)
         (some acc_z_converted),
       convert_temperature temperature_raw,
       convert_uptime uptime,
       parse_flags flag,
       convert_battery (battery : ℤ)⟩
  else
    Except.error (DecodeError.invalidLength data.length 18)

/-- The signed 8.8 fixed-point reading of the octet-swapped word that the
spec prescribes for both 16-bit fields: swap, subtract 0x10000 when the
swapped word exceeds 0x7FFF, divide by 256.  `convert_temperature`
follows it; `convert_acceleration` does not (it skips the sign step). -/
def temperature_decoded (value : ℤ) : ℚ :=
  let corrected : ℤ :=
    if swap_octets value > 0x7FFF then swap_octets value - 0x10000 else swap_octets value
  (corrected : ℚ) / 256

theorem swap_octets_nonneg (v : ℤ) : 0 ≤ swap_octets v := by
  unfold swap_octets
  have h1 : 0 ≤ v.emod 256 := Int.emod_nonneg v (by norm_num)
  have h2 : 0 ≤ (v.fdiv 256).emod 256 := Int.emod_nonneg _ (by norm_num)
  omega

theorem convert_acceleration_range (v : ℤ) :
    0 ≤ convert_acceleration v ∧ convert_acceleration v ≤ 16 := by
  have h0q : (0 : ℚ) ≤ (swap_octets v : ℚ) / 256 := by
    apply div_nonneg _ (by norm_num)
    exact_mod_cast swap_octets_nonneg v
  simp only [convert_acceleration]
  split_ifs with h
  · norm_num
  · push_neg at h
    exact ⟨h0q, h.2⟩

theorem convert_acceleration_zero : convert_acceleration 0 = 0 := by
  simp only [convert_acceleration]
  norm_num [show swap_octets 0 = 0 by decide]

theorem convert_temperature_zero : convert_temperature 0 = some 0 := by
  simp only [convert_temperature]
  norm_num [show swap_octets 0 = 0 by decide]

theorem convert_temperature_eq (value : ℤ) :
    convert_temperature value =
      if temperature_decoded value < -50 ∨ temperature_decoded value > 100 then none
      else some (temperature_decoded value) := rfl

theorem convert_uptime_eq (u : ℕ) :
    convert_uptime u =
      ⟨u / 86400, u % 86400 / 3600, u % 86400 % 3600 / 60, u % 86400 % 3600 % 60⟩ := rfl

/-- C1: code evaluated at the failing input.  For the raw acceleration
word -1 (wire bytes FF FF, i.e. unsigned word 0xFFFF) the code returns
0.0: it leaves the swapped word 0xFFFF as the unsigned value 65535, so
65535/256 ≈ 256 > 16 triggers the clamp.  Under the claimed signed 8.8
interpretation the swapped word decodes to (0xFFFF - 0x10000)/256 =
-1/256 ≈ -0.0039, which lies inside [-16, 16] and so would have to be
kept — and -1/256 ≠ 0. -/
theorem C1_acceleration_signed_claim_vs_code :
    convert_acceleration (-1) = 0 ∧
    swap_octets (-1) = 0xFFFF ∧
    ((0xFFFF - 0x10000 : ℚ) / 256 = -1 / 256 ∧
      (-16 : ℚ) ≤ -1 / 256 ∧ (-1 / 256 : ℚ) ≤ 16) ∧
    (0 : ℚ) ≠ -1 / 256 := by
  refine ⟨?_, by decide, by norm_num, by norm_num⟩
  simp only [convert_acceleration]
  norm_num [show swap_octets (-1) = 65535 by decide]

/-- C2 counterexample: the raw 16-bit word 0x0001 encoded little-endian
on the wire is the byte pair 01 00; `struct.unpack` reads it as 1, the
octet swap gives 0x0100 = 256, and 256/256 = 1.0 — not a value near
0.0039 = 1/256. -/
theorem C2_word_one_decodes_to_one_not_recip256 :
    convert_acceleration (toSigned16 (readU16LE 0x01 0x00)) = 1 ∧ (1 : ℚ) ≠ 1 / 256 := by
  constructor
  · simp only [show toSigned16 (readU16LE 0x01 0x00) = 1 by decide, convert_acceleration]
    norm_num [show swap_octets 1 = 256 by decide]
  · norm_num

/-- C2 amended: the wire word 0x0001 (bytes 01 00) decodes to exactly
1.0, since the octet swap maps 0x0001 to 0x0100 = 256 and 256/256 = 1;
the value 1/256 ≈ 0.0039 arises instead from the wire word 0x0100
(bytes 00 01), whose swap is 0x0001. -/
theorem C2_swap_fixed_point_roundtrip :
    convert_acceleration (toSigned16 (readU16LE 0x01 0x00)) = 1 ∧
    swap_octets (toSigned16 (readU16LE 0x01 0x00)) = 0x0100 ∧
    convert_acceleration (toSigned16 (readU16LE 0x00 0x01)) = 1 / 256 := by
  refine ⟨?_, by decide, ?_⟩
  · simp only [show toSigned16 (readU16LE 0x01 0x00) = 1 by decide, convert_acceleration]
    norm_num [show swap_octets 1 = 256 by decide]
  · simp only [show toSigned16 (readU16LE 0x00 0x01) = 256 by decide, convert_acceleration]
    norm_num [show swap_octets 256 = 1 by decide]

/-- C3: for every byte sequence whose length is not 18 the parse returns
the `invalidLength` error carrying the actual and the expected length;
for every sequence of length 18 it returns a measurement record.  The
model is a total Lean function, so no exception can escape; the
`malformedPayload` branch (the source's catch-all `except`) is never
taken because unpacking 18 bytes cannot fail. -/
theorem C3_length_invariant (data : List ℕ) :
    (data.length ≠ 18 →
      parse_mikrotik_data data = Except.error (DecodeError.invalidLength data.length 18)) ∧
    (data.length = 18 → ∃ r : MeasurementRecord, parse_mikrotik_data data = Except.ok r) := by
  constructor
  · intro h
    simp [parse_mikrotik_data, h]
  · intro h
    unfold parse_mikrotik_data
    rw [if_pos h]
    exact ⟨_, rfl⟩

/-- C3 witness: the one-byte input fails with `invalidLength 1 18`, and
an 18-byte input of zeros parses to a record. -/
theorem C3_length_invariant_witness :
    parse_mikrotik_data [0] = Except.error (DecodeError.invalidLength 1 18) ∧
    ∃ r : MeasurementRecord, parse_mikrotik_data (List.replicate 18 0) = Except.ok r :=
  ⟨(C3_length_invariant [0]).1 (by decide),
   (C3_length_invariant (List.replicate 18 0)).2 (by decide)⟩

/-- C4: the temperature is absent exactly when the signed 8.8 decoded
value (octet swap, minus 0x10000 above 0x7FFF, divided by 256) lies
outside [-50, 100]; any present value is that decoded value; and the raw
word 25 (wire bytes 19 00 swapped to 0x1900) decodes to exactly 25 °C,
which is present. -/
theorem C4_temperature_range (value : ℤ) :
    (convert_temperature value = none ↔
      (temperature_decoded value < -50 ∨ temperature_decoded value > 100)) ∧
    (∀ t : ℚ, convert_temperature value = some t → t = temperature_decoded value) ∧
    convert_temperature 25 = some 25 := by
  refine ⟨?_, ?_, ?_⟩
  · rw [convert_temperature_eq]
    split_ifs with h <;> simp [h]
  · intro t ht
    rw [convert_temperature_eq] at ht
    split_ifs at ht with h
    exact (Option.some_inj.mp ht).symm
  · simp only [convert_temperature]
    norm_num [show swap_octets 25 = 6400 by decide]

/-- C4 witness: the raw word 25 yields a present temperature of exactly
25 °C, and 25 agrees with the signed 8.8 decoded value. -/
theorem C4_temperature_range_witness :
    convert_temperature 25 = some 25 ∧ (25 : ℚ) = temperature_decoded 25 := by
  have h := C4_temperature_range 25
  exact ⟨h.2.2, h.2.1 25 h.2.2⟩

/-- C5: the total-acceleration radicand is defined iff all three axes
are present; when all axes are present its square root is the Euclidean
norm sqrt(x² + y² + z²) of the axis values; and for axes (3, 4, 0) the
total acceleration is exactly 5. -/
theorem C5_total_acceleration_norm (x y z : Option ℚ) :
    ((calculate_total_acceleration_sq x y z).isSome ↔
      (x.isSome ∧ y.isSome ∧ z.isSome)) ∧
    (∀ a b c : ℚ,
      Real.sqrt (((calculate_total_acceleration_sq (some a) (some b) (some c)).getD 0 : ℚ) : ℝ) =
        Real.sqrt ((a : ℝ) ^ 2 + (b : ℝ) ^ 2 + (c : ℝ) ^ 2)) ∧
    Real.sqrt (((calculate_total_acceleration_sq (some 3) (some 4) (some 0)).getD 0 : ℚ) : ℝ)
      = 5 := by
  refine ⟨?_, ?_, ?_⟩
  · cases x <;> cases y <;> cases z <;> simp [calculate_total_acceleration_sq]
  · intro a b c
    simp only [calculate_total_acceleration_sq, Option.getD_some]
    push_cast
    ring_nf
  · simp only [calculate_total_acceleration_sq, Option.getD_some]
    norm_num
    rw [show (25 : ℝ) = 5 ^ 2 by norm_num, Real.sqrt_sq (by norm_num : (0 : ℝ) ≤ 5)]

/-- C6: for a battery byte b with 0 ≤ b ≤ 255, the converted battery is
b itself when b ≤ 100 and absent when b > 100; the lower-bound branch
`b < 0` of the source's check cannot fire. -/
theorem C6_battery_range (b : ℤ) (h0 : 0 ≤ b) (h255 : b ≤ 255) :
    (convert_battery b = if b ≤ 100 then some b else none) ∧ ¬(b < 0) := by
  constructor
  · unfold convert_battery
    split_ifs <;> first | rfl | (exfalso; omega)
  · omega

/-- C6 witness: at b = 150 the battery is absent and the lower bound
does not fire. -/
theorem C6_battery_range_witness :
    (convert_battery 150 = if (150 : ℤ) ≤ 100 then some 150 else none) ∧
    ¬((150 : ℤ) < 0) :=
  C6_battery_range 150 (by decide) (by decide)

/-- C7: each flag equals the flag byte masked with its fixed bit mask
compared against zero; masking away bits 0x40 and 0x80 changes no flag;
0x3F sets all six flags, 0x00 none, and 0x09 exactly reed-switch and
impact-x. -/
theorem C7_flag_extraction (f : ℕ) :
    (parse_flags f = ⟨f &&& 0x01 != 0, f &&& 0x02 != 0, f &&& 0x04 != 0,
        f &&& 0x08 != 0, f &&& 0x10 != 0, f &&& 0x20 != 0⟩) ∧
    parse_flags f = parse_flags (f &&& 0x3F) ∧
    parse_flags 0x3F = ⟨true, true, true, true, true, true⟩ ∧
    parse_flags 0x00 = ⟨false, false, false, false, false, false⟩ ∧
    parse_flags 0x09 = ⟨true, false, false, true, false, false⟩ := by
  refine ⟨rfl, ?_, by decide, by decide, by decide⟩
  simp only [parse_flags, FLAG_REED_SWITCH, FLAG_ACCEL_TILT, FLAG_ACCEL_FREE_FALL,
    FLAG_IMPACT_X, FLAG_IMPACT_Y, FLAG_IMPACT_Z, Nat.land_assoc,
    show (63 &&& 1 : ℕ) = 1 by decide, show (63 &&& 2 : ℕ) = 2 by decide,
    show (63 &&& 4 : ℕ) = 4 by decide, show (63 &&& 8 : ℕ) = 8 by decide,
    show (63 &&& 16 : ℕ) = 16 by decide, show (63 &&& 32 : ℕ) = 32 by decide]

/-- C8: the uptime decomposition is plain integer division and modulo —
days = u / 86400, hours = u % 86400 / 3600, minutes = u % 3600 / 60,
seconds = u % 60 — defined for every count (the theorem holds for all
naturals, hence for every 32-bit value; the function is total, so there
is no failure mode); and 90065 seconds is 1 day, 1 hour, 1 minute and
5 seconds. -/
theorem C8_uptime_decomposition (u : ℕ) :
    convert_uptime u = ⟨u / 86400, u % 86400 / 3600, u % 3600 / 60, u % 60⟩ ∧
    convert_uptime 90065 = ⟨1, 1, 1, 5⟩ := by
  constructor
  · rw [convert_uptime_eq]
    simp only [Uptime.mk.injEq, true_and]
    constructor <;> omega
  · decide

/-- C9: every successfully parsed record has all three acceleration
axes in [0, 16] — never negative: the swapped word is used without sign
correction, and any swapped word above 0x7FFF decodes above 16 and is
clamped to 0. -/
theorem C9_acceleration_never_negative (data : List ℕ) (r : MeasurementRecord)
    (h : parse_mikrotik_data data = Except.ok r) :
    ((0 ≤ r.acceleration_x ∧ r.acceleration_x ≤ 16) ∧
     (0 ≤ r.acceleration_y ∧ r.acceleration_y ≤ 16) ∧
     (0 ≤ r.acceleration_z ∧ r.acceleration_z ≤ 16)) ∧
    (∀ v : ℤ, swap_octets v > 0x7FFF → convert_acceleration v = 0) := by
  constructor
  · unfold parse_mikrotik_data at h
    split_ifs at h with hl
    simp only [Except.ok.injEq] at h
    subst h
    exact ⟨convert_acceleration_range _, convert_acceleration_range _,
      convert_acceleration_range _⟩
  · intro v hv
    have h16 : (16 : ℚ) < (swap_octets v : ℚ) / 256 := by
      rw [lt_div_iff₀ (by norm_num : (0 : ℚ) < 256)]
      have : (4096 : ℤ) < swap_octets v := by omega
      exact_mod_cast this
    simp only [convert_acceleration]
    rw [if_pos (Or.inr h16)]

/-- C9 witness: the all-zero 18-byte frame parses to the record with all
axes 0, and 0 lies in [0, 16]. -/
theorem C9_acceleration_never_negative_witness :
    (0 ≤ (⟨0, 0, 0, some 0, some 0, ⟨0, 0, 0, 0⟩,
        ⟨false, false, false, false, false, false⟩, some 0⟩ : MeasurementRecord).acceleration_x ∧
      (⟨0, 0, 0, some 0, some 0, ⟨0, 0, 0, 0⟩,
        ⟨false, false, false, false, false, false⟩, some 0⟩ : MeasurementRecord).acceleration_x
        ≤ 16) := by
  have hp : parse_mikrotik_data (List.replicate 18 0) = Except.ok
      ⟨0, 0, 0, some 0, some 0, ⟨0, 0, 0, 0⟩,
        ⟨false, false, false, false, false, false⟩, some 0⟩ := by
    simp only [parse_mikrotik_data]
    norm_num [convert_acceleration_zero, convert_temperature_zero,
      calculate_total_acceleration_sq, convert_battery, convert_uptime,
      show toSigned16 (readU16LE 0 0) = 0 by decide,
      show readU32LE 0 0 0 0 = 0 by decide,
      show parse_flags 0 = ⟨false, false, false, false, false, false⟩ by decide]
  exact (C9_acceleration_never_negative (List.replicate 18 0) _ hp).1.1

/-- C10: the decomposed uptime reconstructs the input exactly —
days·86400 + hours·3600 + minutes·60 + seconds = u — with hours < 24,
minutes < 60 and seconds < 60 (proved for every natural, hence for every
32-bit value). -/
theorem C10_uptime_reconstruction (u : ℕ) :
    (convert_uptime u).days * 86400 + (convert_uptime u).hours * 3600 +
      (convert_uptime u).minutes * 60 + (convert_uptime u).seconds = u ∧
    (convert_uptime u).hours < 24 ∧ (convert_uptime u).minutes < 60 ∧
    (convert_uptime u).seconds < 60 := by
  rw [convert_uptime_eq]
  refine ⟨?_, ?_, ?_, ?_⟩ <;> simp only [] <;> omega
